import Mathlib

/-!
Shallow embedding of the K-Food timer engine (`src/modules/timer_module.py`)
and verification of the frozen claims about it.

Modelling conventions:
* Wall-clock timestamps and durations are integers (`ℤ`, epoch seconds);
  every operation that reads `time.time()` in Python takes an explicit
  `now : ℤ` argument.  Python's `int(x)` truncation is the identity on
  this integral model.
* Progress percentages are rationals (`ℚ`).  Python's float division that
  can raise `ZeroDivisionError` is modelled as `Option ℚ` (`none` = the
  `ZeroDivisionError` raised when the divisor is `0`).
* A fallible operation returns its updated object together with the `Bool`
  the Python method returns.  Callback invocations of a `TimerQueue`
  (its `callback(queue_id, status, timer_id)` calls, including the ones
  forwarded through the internal `_timer_status_changed` handler) are
  modelled as an explicit list of emitted events.
* `Timer.from_dict` / `KTimer.from_dict` reads a snapshot dictionary;
  a Python `KeyError` (missing key) or `ValueError` (unrecognised status
  string) is modelled as `none`.  The snapshot structure carries the nine
  fields `from_dict` reads; `to_dict` additionally computes the two
  derived entries `remaining_time` and `progress` (the latter can raise,
  so `to_dict` is `Option`-valued) and carries them alongside the
  snapshot, since `from_dict` never reads them back.
* The background daemon thread (`_run_timer`) is not a claim subject by
  itself; where a claim depends on it only through the fact that a RUNNING
  timer is observed before its deadline, that fact appears as an explicit
  hypothesis.

The Python classes `Timer`, `TimerQueue` are embedded as `KTimer`,
`KTimerQueue` (prefixed to avoid clashing with Mathlib names); their
fields and methods keep the Python names.
-/

/-- Python's two-argument `min(a, b)` on rationals (`min(a, b)` returns
`a` when `a <= b`, else `b`), kept as an explicit `if` so that it
evaluates by kernel reduction. -/
def pymin (a b : ℚ) : ℚ := if a ≤ b then a else b

theorem pymin_eq_min (a b : ℚ) : pymin a b = min a b := by
  unfold pymin
  rcases le_total a b with h | h
  · simp [h, min_eq_left h]
  · rcases eq_or_lt_of_le h with rfl | hlt
    · simp
    · simp [not_le.mpr hlt, min_eq_right h]

/-- The `TimerStatus` enumeration of `timer_module.py`. -/
inductive KTimerStatus where
  | ready
  | running
  | paused
  | completed
  | cancelled
deriving DecidableEq, Repr

/-- `TimerStatus.value`: the wire string of each status, as in the Python
`Enum` (`READY = "ready"`, …). -/
def KTimerStatus.value : KTimerStatus → String
  | .ready => "ready"
  | .running => "running"
  | .paused => "paused"
  | .completed => "completed"
  | .cancelled => "cancelled"

/-- `TimerStatus(s)`: parsing a status string, `none` modelling the
`ValueError` Python raises on an unrecognised value. -/
def parseTimerStatus (s : String) : Option KTimerStatus :=
  if s = "ready" then some .ready
  else if s = "running" then some .running
  else if s = "paused" then some .paused
  else if s = "completed" then some .completed
  else if s = "cancelled" then some .cancelled
  else none

/-- The mutable state of a Python `Timer` object (the callback and thread
fields are modelled separately: events as explicit outputs, the thread via
explicit `now` arguments). -/
structure KTimer where
  timer_id : String
  product_id : String
  product_name : String
  duration : ℤ
  start_time : ℤ
  end_time : ℤ
  paused_time : ℤ
  elapsed_pause_time : ℤ
  status : KTimerStatus
deriving DecidableEq, Repr

instance : Inhabited KTimer :=
  ⟨⟨"", "", "", 0, 0, 0, 0, 0, .ready⟩⟩

/-- `Timer.start()` at wall-clock time `now` (lines 82–115).  Returns the
updated timer and the method's boolean result. -/
def KTimer.start (t : KTimer) (now : ℤ) : KTimer × Bool :=
  if t.status ≠ .ready ∧ t.status ≠ .paused then (t, false)
  else
    let t1 :=
      if t.status = .ready then
        { t with start_time := now, end_time := now + t.duration,
                 elapsed_pause_time := 0 }
      else
        let pause_duration := now - t.paused_time
        { t with elapsed_pause_time := t.elapsed_pause_time + pause_duration,
                 end_time := t.end_time + pause_duration }
    ({ t1 with status := .running }, true)

/-- `Timer.pause()` at wall-clock time `now` (lines 117–134). -/
def KTimer.pause (t : KTimer) (now : ℤ) : KTimer × Bool :=
  if t.status ≠ .running then (t, false)
  else ({ t with status := .paused, paused_time := now }, true)

/-- `Timer.resume()` (lines 136–143): an alias for `start()`. -/
def KTimer.resume (t : KTimer) (now : ℤ) : KTimer × Bool :=
  t.start now

/-- `Timer.cancel()` (lines 145–162). -/
def KTimer.cancel (t : KTimer) : KTimer × Bool :=
  if t.status = .completed ∨ t.status = .cancelled then (t, false)
  else ({ t with status := .cancelled }, true)

/-- `Timer.get_remaining_time()` at wall-clock time `now` (lines 164–179). -/
def KTimer.get_remaining_time (t : KTimer) (now : ℤ) : ℤ :=
  match t.status with
  | .ready => t.duration
  | .completed => 0
  | .cancelled => 0
  | .paused => t.end_time - t.paused_time
  | .running => max 0 (t.end_time - now)

/-- `Timer.get_progress_percentage()` at wall-clock time `now`
(lines 181–197).  `none` models the `ZeroDivisionError` that the
`elapsed / self.duration` expression raises when `duration = 0` (reached
in the CANCELLED and RUNNING/PAUSED branches; READY and COMPLETED return
constants without dividing). -/
def KTimer.get_progress_percentage (t : KTimer) (now : ℤ) : Option ℚ :=
  match t.status with
  | .ready => some 0
  | .completed => some 100
  | _ =>
    if t.duration = 0 then none
    else
      let elapsed : ℚ := ((t.duration - t.get_remaining_time now : ℤ) : ℚ)
      some (pymin 100 (elapsed / ((t.duration : ℤ) : ℚ) * 100))

/-- A persisted timer snapshot, as read by `Timer.from_dict`
(lines 239–262).  Each field is an `Option`: `none` models the key being
absent from the dictionary (a lookup then raises `KeyError`).  The two
derived entries `remaining_time` and `progress` that `to_dict`
additionally writes are never read by `from_dict`; `to_dict` carries
them alongside this structure. -/
structure KTimerSnapshot where
  timer_id : Option String
  product_id : Option String
  product_name : Option String
  duration : Option ℤ
  start_time : Option ℤ
  end_time : Option ℤ
  paused_time : Option ℤ
  elapsed_pause_time : Option ℤ
  status : Option String
deriving DecidableEq, Repr

/-- `Timer.to_dict()` (lines 218–237) at wall-clock time `now`.  Besides
the nine persisted fields the Python dict carries the two derived entries
`remaining_time` (line 235) and `progress` (line 236); computing the
latter calls `get_progress_percentage`, which raises `ZeroDivisionError`
for a duration-0 timer in CANCELLED/RUNNING/PAUSED status, so `to_dict`
itself can raise — modelled as `none`.  On success the derived pair is
returned alongside the snapshot (rather than inside it) because
`from_dict` never reads those two entries back. -/
def KTimer.to_dict (t : KTimer) (now : ℤ) :
    Option (KTimerSnapshot × ℤ × ℚ) :=
  (t.get_progress_percentage now).map fun prog =>
    (⟨some t.timer_id, some t.product_id, some t.product_name,
      some t.duration, some t.start_time, some t.end_time,
      some t.paused_time, some t.elapsed_pause_time, some t.status.value⟩,
     t.get_remaining_time now, prog)

/-- `Timer.from_dict(data)` evaluated at wall-clock time `now`
(lines 239–275).  `none` models a raised `KeyError`/`ValueError`.  On
success the result pairs the reconstructed timer with a flag recording
whether a background countdown loop was launched for it.  Note that no
status-change callback is invoked anywhere in `from_dict`: the RUNNING →
COMPLETED recovery on line 268 is a bare field assignment. -/
def KTimer.from_dict (d : KTimerSnapshot) (now : ℤ) : Option (KTimer × Bool) :=
  match d.product_id, d.product_name, d.duration, d.timer_id,
        d.start_time, d.end_time, d.paused_time, d.elapsed_pause_time,
        d.status with
  | some pid, some pname, some dur, some tid, some st, some et, some pt,
    some ept, some s =>
    match parseTimerStatus s with
    | none => none
    | some stat =>
      let t : KTimer := ⟨tid, pid, pname, dur, st, et, pt, ept, stat⟩
      if t.status = .running then
        if now > t.end_time then some ({ t with status := .completed }, false)
        else some (t, true)
      else some (t, false)
  | _, _, _, _, _, _, _, _, _ => none

/-- One call of a `TimerQueue`'s external callback:
`callback(queue_id, status, timer_id)`. -/
abbrev KQueueEvent := String × KTimerStatus × Option String

/-- The mutable state of a Python `TimerQueue` object.  `current_index`
is an integer with `-1` as the "no current timer" sentinel, exactly as in
the source. -/
structure KTimerQueue where
  queue_id : String
  name : String
  timers : List KTimer
  current_index : ℤ
  status : KTimerStatus
deriving DecidableEq, Repr

/-- Result of a `TimerQueue` operation: the updated queue, the method's
boolean result, and the external-callback events emitted during the call
(both direct `self.callback(...)` calls and the ones the internal
`_timer_status_changed` handler forwards when an owned timer's status
changes). -/
structure KQueueStep where
  queue : KTimerQueue
  ok : Bool
  events : List KQueueEvent
deriving DecidableEq, Repr

/-- `TimerQueue.get_current_timer()` (lines 520–529). -/
def KTimerQueue.get_current_timer (q : KTimerQueue) : Option KTimer :=
  if 0 ≤ q.current_index ∧ q.current_index < (q.timers.length : ℤ) then
    q.timers[q.current_index.toNat]?
  else none

/-- `TimerQueue._start_next_timer()` at wall-clock time `now`
(lines 494–518).  When the new index is in range, starting the timer
there fires the timer's callback — the queue's `_timer_status_changed`
handler — which (the new status being RUNNING, not COMPLETED) merely
forwards `(queue_id, self.status, timer_id)` to the external callback. -/
def KTimerQueue.start_next_timer (q : KTimerQueue) (now : ℤ) : KQueueStep :=
  let idx := q.current_index + 1
  if (q.timers.length : ℤ) ≤ idx then
    { queue := { q with current_index := -1, status := .completed },
      ok := false,
      events := [(q.queue_id, .completed, none)] }
  else
    match q.timers[idx.toNat]? with
    | none =>
      { queue := { q with current_index := idx }, ok := false, events := [] }
    | some t =>
      let (t', ok) := t.start now
      { queue := { q with current_index := idx,
                          timers := q.timers.set idx.toNat t' },
        ok := ok,
        events :=
          if ok then [(q.queue_id, q.status, some t.timer_id)] else [] }

/-- `TimerQueue.start()` at wall-clock time `now` (lines 363–390). -/
def KTimerQueue.start (q : KTimerQueue) (now : ℤ) : KQueueStep :=
  if q.timers = [] then { queue := q, ok := false, events := [] }
  else if q.status = .running then { queue := q, ok := false, events := [] }
  else
    let q1 :=
      if q.status = .completed ∨ q.status = .cancelled then
        { q with
            timers := q.timers.map fun t =>
              if t.status ≠ .ready then { t with status := .ready } else t,
            current_index := -1 }
      else q
    let q2 := { q1 with status := KTimerStatus.running }
    let rest := q2.start_next_timer now
    { queue := rest.queue, ok := rest.ok,
      events := (q.queue_id, KTimerStatus.running, none) :: rest.events }

/-- `TimerQueue.cancel()` (lines 457–476).  Cancelling the current timer
(when the index is valid) fires that timer's callback, which the internal
handler forwards as `(queue_id, self.status, timer_id)` with the queue's
status as it is at that moment (before the queue itself flips to
CANCELLED). -/
def KTimerQueue.cancel (q : KTimerQueue) : KQueueStep :=
  let inner :=
    if 0 ≤ q.current_index ∧ q.current_index < (q.timers.length : ℤ) then
      let t := (q.timers[q.current_index.toNat]?).getD default
      let (t', ok) := t.cancel
      (q.timers.set q.current_index.toNat t',
       if ok then [(q.queue_id, q.status, some t.timer_id)] else [])
    else (q.timers, [])
  { queue := { q with timers := inner.1, status := .cancelled,
                      current_index := -1 },
    ok := true,
    events := inner.2 ++ [(q.queue_id, .cancelled, none)] }

/-- Result of `TimerQueue.remove_timer`: besides the queue step, the
state of the removed timer object itself (the caller may still hold it;
the claim about cancellation concerns its final status), or `none` when
no timer matched. -/
structure KRemoveResult where
  queue : KTimerQueue
  ok : Bool
  events : List KQueueEvent
  removed : Option KTimer
deriving DecidableEq, Repr

/-- `TimerQueue.remove_timer(timer_id)` (lines 332–361).  The Python
`for`-loop acts on the first timer whose id matches.  Only a RUNNING
timer sitting at `current_index` is cancelled before removal (the cancel
fires the timer's callback, forwarded by the handler as
`(queue_id, self.status, timer_id)`); the `current_index = -1`
adjustment applies only in that branch and only when the removed timer
was last in the list.  Removal that empties the list flips the queue to
COMPLETED and fires `(queue_id, COMPLETED, None)`. -/
def KTimerQueue.remove_timer (q : KTimerQueue) (tid : String) : KRemoveResult :=
  match q.timers.findIdx? (fun t => t.timer_id == tid) with
  | none => { queue := q, ok := false, events := [], removed := none }
  | some i =>
    let t := (q.timers[i]?).getD default
    let docancel : Bool :=
      (i : ℤ) == q.current_index && t.status == KTimerStatus.running
    let t' := if docancel then (t.cancel).1 else t
    let evs1 : List KQueueEvent :=
      if docancel then [(q.queue_id, q.status, some t.timer_id)] else []
    let idx' : ℤ :=
      if docancel ∧ i = q.timers.length - 1 then -1 else q.current_index
    let timers' := q.timers.eraseIdx i
    if timers' = [] then
      { queue := { q with timers := timers', current_index := idx',
                          status := .completed },
        ok := true,
        events := evs1 ++ [(q.queue_id, .completed, none)],
        removed := some t' }
    else
      { queue := { q with timers := timers', current_index := idx' },
        ok := true,
        events := evs1,
        removed := some t' }

/-- `TimerQueue.get_progress_percentage()` at wall-clock time `now`
(lines 556–582).  Python's `range(self.current_index)` is empty whenever
`current_index ≤ 0`, which `Int.toNat` reproduces; no division occurs
when the total duration is `≤ 0`, so the result is total. -/
def KTimerQueue.get_progress_percentage (q : KTimerQueue) (now : ℤ) : ℚ :=
  if q.timers = [] then 0
  else
    let total_duration : ℤ := (q.timers.map KTimer.duration).sum
    if total_duration ≤ 0 then 0
    else
      let completed0 : ℤ :=
        ((q.timers.take q.current_index.toNat).map KTimer.duration).sum
      let completed_duration : ℤ :=
        match q.get_current_timer with
        | some t => completed0 + (t.duration - t.get_remaining_time now)
        | none => completed0
      pymin 100 (((completed_duration : ℚ) / ((total_duration : ℤ) : ℚ)) * 100)

/-! ## Concrete states used by counterexamples and witnesses -/

/-- A timer of duration 10 observed RUNNING with `start_time = 0`,
`end_time = 10`. -/
def runningTimer10 : KTimer := ⟨"t1", "p1", "ramen", 10, 0, 10, 0, 0, .running⟩

/-- A fresh timer whose `duration` is `0`. -/
def zeroDurationTimer : KTimer := ⟨"t0", "p0", "egg", 0, 0, 0, 0, 0, .ready⟩

/-- A timer in READY state. -/
def readyTimer : KTimer := ⟨"t2", "p2", "tteok", 7, 0, 0, 0, 0, .ready⟩

/-- A timer that has COMPLETED (duration 10, ran from 0 to 10). -/
def completedTimer : KTimer := ⟨"t3", "p3", "kimbap", 10, 0, 10, 0, 0, .completed⟩

/-- A queue holding exactly the completed timer, after its run finished:
`_start_next_timer` has reset `current_index` to `-1` and the queue status
is COMPLETED. -/
def completedQueue : KTimerQueue := ⟨"q1", "dinner", [completedTimer], -1, .completed⟩

/-- A queue whose timer list is empty, still READY. -/
def emptyQueue : KTimerQueue := ⟨"q2", "empty", [], -1, .ready⟩

/-- A timer of duration 10 paused at time 4 (so 6 seconds remain frozen). -/
def pausedTimer : KTimer := ⟨"tp", "p4", "mandu", 10, 0, 10, 4, 0, .paused⟩

/-- A queue whose single timer is the paused one and is the current timer. -/
def pausedQueue : KTimerQueue := ⟨"q3", "lunch", [pausedTimer], 0, .paused⟩

/-! ## C1 — pause/resume preserves the remaining time -/

/-- C1: a RUNNING timer paused at `t1` (at or before its deadline, where
the background loop keeps a timer observably RUNNING) and resumed at `t2`
reports, immediately after `resume()`, exactly the remaining time that was
frozen at the moment of pause: `resume` shifts `end_time` forward by the
pause duration `t2 - t1`, so `int(end_time' - t2) = int(end_time - t1)`. -/
theorem C1_pause_resume_preserves_remaining (t : KTimer) (t1 t2 : ℤ)
    (hdur : 0 ≤ t.duration) (hrun : t.status = .running)
    (hbefore : t1 ≤ t.end_time) :
    (t.pause t1).2 = true ∧
    ((t.pause t1).1.resume t2).2 = true ∧
    ((t.pause t1).1.resume t2).1.get_remaining_time t2 =
      (t.pause t1).1.get_remaining_time t1 := by
  obtain ⟨tid, pid, pname, dur, st, et, pt, ept, s⟩ := t
  simp only at hrun hbefore hdur
  subst hrun
  simp [KTimer.pause, KTimer.resume, KTimer.start, KTimer.get_remaining_time]
  omega

/-- C1 witness: the timer of duration 10 started at 0, paused at 4 and
resumed at 9, reports 6 remaining both frozen at the pause and right
after the resume. -/
theorem C1_witness :
    (runningTimer10.pause 4).2 = true ∧
    ((runningTimer10.pause 4).1.resume 9).2 = true ∧
    ((runningTimer10.pause 4).1.resume 9).1.get_remaining_time 9 =
      (runningTimer10.pause 4).1.get_remaining_time 4 :=
  C1_pause_resume_preserves_remaining runningTimer10 4 9
    (by decide) (by decide) (by decide)

/-! ## C2 — progress of a duration-0 timer -/

/-- C2 (code bug): contrary to the claim, `get_progress_percentage` is
not total: for a timer with `duration == 0` the expression
`(elapsed / self.duration) * 100.0` raises `ZeroDivisionError` (modelled
as `none`) in the CANCELLED branch (reachable deterministically by
cancelling the fresh duration-0 timer) and in the RUNNING branch
(reachable by starting it and querying before the background loop's first
tick flips it to COMPLETED).  The claim expects `100` instead. -/
theorem C2_zero_duration_progress_divzero :
    ((zeroDurationTimer.cancel).1.get_progress_percentage 0 = none) ∧
    ((zeroDurationTimer.start 0).1.get_progress_percentage 0 = none) ∧
    (zeroDurationTimer.cancel).2 = true ∧
    (zeroDurationTimer.start 0).2 = true := by decide

/-! ## C8 — cancel is idempotent-safe -/

/-- C8: `cancel()` from READY, RUNNING or PAUSED returns `True` and sets
the status to CANCELLED; from COMPLETED or CANCELLED it returns `False`
and leaves the timer entirely unchanged, so two consecutive calls return
`(True, False)` and the status stays CANCELLED. -/
theorem C8_cancel_idempotent (t : KTimer) :
    (t.status = .ready ∨ t.status = .running ∨ t.status = .paused →
       (t.cancel).2 = true ∧ (t.cancel).1.status = .cancelled ∧
       ((t.cancel).1.cancel).2 = false ∧
       ((t.cancel).1.cancel).1 = (t.cancel).1) ∧
    (t.status = .completed ∨ t.status = .cancelled →
       t.cancel = (t, false)) := by
  obtain ⟨tid, pid, pname, dur, st, et, pt, ept, s⟩ := t
  cases s <;> simp [KTimer.cancel]

/-- C8 witness: the READY timer and the COMPLETED timer exercise both
halves; consecutive cancels yield `(true, false)` with the state frozen
at CANCELLED. -/
theorem C8_witness :
    ((readyTimer.cancel).2 = true ∧ (readyTimer.cancel).1.status = .cancelled ∧
     ((readyTimer.cancel).1.cancel).2 = false ∧
     ((readyTimer.cancel).1.cancel).1 = (readyTimer.cancel).1) ∧
    completedTimer.cancel = (completedTimer, false) :=
  ⟨(C8_cancel_idempotent readyTimer).1 (Or.inl rfl),
   (C8_cancel_idempotent completedTimer).2 (Or.inl rfl)⟩

/-! ## C10 — queue-level cancel never fails -/

/-- C10: `TimerQueue.cancel()` succeeds from every status (including the
terminal COMPLETED and CANCELLED), sets the queue status to CANCELLED and
`current_index` to the sentinel `-1`, and fires the queue callback with
`(queue_id, CANCELLED, None)` — so, unlike `Timer.cancel`, the queue's
terminal states are not final at the queue level. -/
theorem C10_queue_cancel_total (q : KTimerQueue) :
    (q.cancel).ok = true ∧
    (q.cancel).queue.status = .cancelled ∧
    (q.cancel).queue.current_index = -1 ∧
    (q.queue_id, KTimerStatus.cancelled, (none : Option String)) ∈
      (q.cancel).events := by
  unfold KTimerQueue.cancel
  refine ⟨rfl, rfl, rfl, ?_⟩
  exact List.mem_append_right _ (List.mem_singleton.mpr rfl)

/-! ## Serialization: C6, C7, C9 -/

theorem parseTimerStatus_value (s : KTimerStatus) :
    parseTimerStatus s.value = some s := by
  cases s <;> decide

/-- C6 counterexample: the claim quantifies over every reachable Timer
in any of its five statuses, but `to_dict` itself raises for a reachable
timer: `Timer(_, _, 0)` cancelled from READY is CANCELLED, and its
`to_dict` evaluates the `progress` entry via `get_progress_percentage`,
which divides by the zero duration — the round trip raises
`ZeroDivisionError` instead of reproducing the timer. -/
theorem C6_counterexample :
    (zeroDurationTimer.cancel).1.status = .cancelled ∧
    (zeroDurationTimer.cancel).1.to_dict 0 = none := by decide

/-- C6 amended: `Timer.from_dict(timer.to_dict())` succeeds and
reproduces `timer_id`, `product_id`, `duration` and `status` for a timer
in any of the five statuses, provided `to_dict` does not raise — i.e.
excluding a duration-0 timer in CANCELLED/RUNNING/PAUSED status, where
the `progress` entry of `to_dict` raises `ZeroDivisionError` (the C2
bug surfacing through serialization).  For a RUNNING timer the
hypothesis `now ≤ end_time` records that the round trip happens while
the timer has not yet passed its deadline (past the deadline
`from_dict`'s recovery policy — claim C7 — rewrites the status to
COMPLETED; the background loop keeps a live timer out of that window up
to its 100 ms poll tick). -/
theorem C6_to_dict_from_dict_roundtrip (t : KTimer) (now : ℤ)
    (hzero : t.duration = 0 → t.status = .ready ∨ t.status = .completed)
    (hrun : t.status = .running → now ≤ t.end_time) :
    ((t.to_dict now).bind (fun x => KTimer.from_dict x.1 now)).map
        (fun r => (r.1.timer_id, r.1.product_id, r.1.duration,
                   r.1.status)) =
      some (t.timer_id, t.product_id, t.duration, t.status) := by
  obtain ⟨tid, pid, pname, dur, st, et, pt, ept, s⟩ := t
  simp only at hrun hzero
  cases s with
  | ready => rfl
  | completed => rfl
  | cancelled =>
    have hd : dur ≠ 0 := fun h => by rcases hzero h with h2 | h2 <;> cases h2
    have hsome : ((KTimer.mk tid pid pname dur st et pt ept
        .cancelled).get_progress_percentage now).isSome = true := by
      simp [KTimer.get_progress_percentage, hd]
    obtain ⟨p, hp⟩ := Option.isSome_iff_exists.mp hsome
    simp [KTimer.to_dict, hp, KTimer.from_dict, parseTimerStatus,
      KTimerStatus.value]
  | paused =>
    have hd : dur ≠ 0 := fun h => by rcases hzero h with h2 | h2 <;> cases h2
    have hsome : ((KTimer.mk tid pid pname dur st et pt ept
        .paused).get_progress_percentage now).isSome = true := by
      simp [KTimer.get_progress_percentage, hd]
    obtain ⟨p, hp⟩ := Option.isSome_iff_exists.mp hsome
    simp [KTimer.to_dict, hp, KTimer.from_dict, parseTimerStatus,
      KTimerStatus.value]
  | running =>
    have hd : dur ≠ 0 := fun h => by rcases hzero h with h2 | h2 <;> cases h2
    have h : ¬ now > et := not_lt.mpr (hrun rfl)
    have hsome : ((KTimer.mk tid pid pname dur st et pt ept
        .running).get_progress_percentage now).isSome = true := by
      simp [KTimer.get_progress_percentage, hd]
    obtain ⟨p, hp⟩ := Option.isSome_iff_exists.mp hsome
    simp [KTimer.to_dict, hp, KTimer.from_dict, parseTimerStatus,
      KTimerStatus.value, h]

/-- C6 witness: the duration-10 RUNNING timer round-tripped at
`now = 5 ≤ 10`: both hypotheses are discharged concretely and the four
fields come back identical. -/
theorem C6_witness :
    ((runningTimer10.to_dict 5).bind
        (fun x => KTimer.from_dict x.1 5)).map
        (fun r => (r.1.timer_id, r.1.product_id, r.1.duration,
                   r.1.status)) =
      some (runningTimer10.timer_id, runningTimer10.product_id,
            runningTimer10.duration, runningTimer10.status) :=
  C6_to_dict_from_dict_roundtrip runningTimer10 5 (by decide) (by decide)

/-- C7: reconstructing a snapshot whose status field is `"running"`:
if `now > end_time` the timer comes back immediately COMPLETED with no
background loop launched (and, as `from_dict` contains no callback call
at all, no completion callback is synthesized); otherwise it comes back
RUNNING with the loop relaunched against the reconstructed `end_time`. -/
theorem C7_running_snapshot_reconstruction (d : KTimerSnapshot) (now : ℤ)
    (tid pid pname : String) (dur st et pt ept : ℤ)
    (h1 : d.timer_id = some tid) (h2 : d.product_id = some pid)
    (h3 : d.product_name = some pname) (h4 : d.duration = some dur)
    (h5 : d.start_time = some st) (h6 : d.end_time = some et)
    (h7 : d.paused_time = some pt) (h8 : d.elapsed_pause_time = some ept)
    (h9 : d.status = some "running") :
    (now > et →
       KTimer.from_dict d now =
         some (⟨tid, pid, pname, dur, st, et, pt, ept, .completed⟩, false)) ∧
    (¬ now > et →
       KTimer.from_dict d now =
         some (⟨tid, pid, pname, dur, st, et, pt, ept, .running⟩, true)) := by
  obtain ⟨f1, f2, f3, f4, f5, f6, f7, f8, f9⟩ := d
  simp only at h1 h2 h3 h4 h5 h6 h7 h8 h9
  subst h1; subst h2; subst h3; subst h4; subst h5
  subst h6; subst h7; subst h8; subst h9
  constructor <;> intro h <;>
    simp [KTimer.from_dict, parseTimerStatus, h]

/-- C7 witness: a concrete `"running"` snapshot with `end_time = 10`,
read back at `now = 20` (past deadline: COMPLETED, no loop) and at
`now = 5` (not past: RUNNING, loop relaunched). -/
theorem C7_witness :
    (KTimer.from_dict ⟨some "t", some "p", some "n", some 10, some 0,
        some 10, some 0, some 0, some "running"⟩ 20 =
      some (⟨"t", "p", "n", 10, 0, 10, 0, 0, .completed⟩, false)) ∧
    (KTimer.from_dict ⟨some "t", some "p", some "n", some 10, some 0,
        some 10, some 0, some 0, some "running"⟩ 5 =
      some (⟨"t", "p", "n", 10, 0, 10, 0, 0, .running⟩, true)) :=
  ⟨(C7_running_snapshot_reconstruction _ 20 "t" "p" "n" 10 0 10 0 0
      rfl rfl rfl rfl rfl rfl rfl rfl rfl).1 (by decide),
   (C7_running_snapshot_reconstruction _ 5 "t" "p" "n" 10 0 10 0 0
      rfl rfl rfl rfl rfl rfl rfl rfl rfl).2 (by decide)⟩

theorem parseTimerStatus_isSome_iff (s : String) :
    (parseTimerStatus s).isSome = true ↔
      s = "ready" ∨ s = "running" ∨ s = "paused" ∨ s = "completed" ∨
      s = "cancelled" := by
  unfold parseTimerStatus
  split_ifs <;> simp_all

/-- The claim's notion of a structurally valid persisted timer snapshot:
all nine required fields present, and the status value one of the five
recognised strings. -/
def KTimerSnapshot.structurally_complete (d : KTimerSnapshot) : Prop :=
  d.timer_id.isSome ∧ d.product_id.isSome ∧ d.product_name.isSome ∧
  d.duration.isSome ∧ d.start_time.isSome ∧ d.end_time.isSome ∧
  d.paused_time.isSome ∧ d.elapsed_pause_time.isSome ∧
  ∃ s, d.status = some s ∧
    (s = "ready" ∨ s = "running" ∨ s = "paused" ∨ s = "completed" ∨
     s = "cancelled")

/-- C9: `Timer.from_dict` succeeds exactly on structurally complete
snapshots — a missing required field (`KeyError`) or an unrecognised
status string (`ValueError`) surfaces as an error rather than a timer
with substituted defaults, and a complete snapshot never errors. -/
theorem C9_from_dict_succeeds_iff_complete (d : KTimerSnapshot) (now : ℤ) :
    (KTimer.from_dict d now).isSome = true ↔ d.structurally_complete := by
  obtain ⟨f1, f2, f3, f4, f5, f6, f7, f8, f9⟩ := d
  unfold KTimerSnapshot.structurally_complete
  cases f2 with
  | none => simp [KTimer.from_dict]
  | some pid =>
  cases f3 with
  | none => simp [KTimer.from_dict]
  | some pname =>
  cases f4 with
  | none => simp [KTimer.from_dict]
  | some dur =>
  cases f1 with
  | none => simp [KTimer.from_dict]
  | some tid =>
  cases f5 with
  | none => simp [KTimer.from_dict]
  | some st =>
  cases f6 with
  | none => simp [KTimer.from_dict]
  | some et =>
  cases f7 with
  | none => simp [KTimer.from_dict]
  | some pt =>
  cases f8 with
  | none => simp [KTimer.from_dict]
  | some ept =>
  cases f9 with
  | none => simp [KTimer.from_dict]
  | some s =>
    have hiff := parseTimerStatus_isSome_iff s
    simp only [KTimer.from_dict]
    cases hp : parseTimerStatus s with
    | none =>
      simp [hp] at hiff
      simp [hiff]
    | some stat =>
      simp [hp] at hiff
      simp only [Option.isSome_some, Option.some.injEq]
      constructor
      · intro _
        refine ⟨trivial, trivial, trivial, trivial, trivial, trivial,
          trivial, trivial, s, rfl, hiff⟩
      · intro _
        split
        · split <;> rfl
        · rfl

/-! ## C3 — queue progress percentage -/

/-- A queue not yet started: `current_index` still `-1`, status READY. -/
def readyQueue : KTimerQueue := ⟨"q6", "prep", [readyTimer], -1, .ready⟩

/-- C3 counterexample: the claim says a queue whose every timer has
COMPLETED reports 100.  In the code, once the last timer finishes
`_start_next_timer` resets `current_index` to `-1`, so
`range(self.current_index)` is empty and `get_current_timer()` is `None`:
the fully completed queue (one completed timer of duration 10) reports
progress `0`, not `100`. -/
theorem C3_counterexample :
    completedQueue.get_progress_percentage 20 = 0 ∧
    completedQueue.get_progress_percentage 20 ≠ 100 := by
  have h : completedQueue.get_progress_percentage 20 = 0 := by
    simp [KTimerQueue.get_progress_percentage, KTimerQueue.get_current_timer,
      completedQueue, completedTimer, pymin]
  exact ⟨h, by rw [h]; norm_num⟩

/-- C3 amended: `TimerQueue.get_progress_percentage()` equals
`(sum of durations of the timers strictly before current_index + elapsed
of the current timer) / (sum of all durations) * 100`, capped above at
100, whenever `0 ≤ current_index < len(timers)`; it equals 0 when the
queue has no timers, when the total duration is ≤ 0, and whenever
`current_index` is the sentinel `-1` — in particular a fully COMPLETED
queue (whose `current_index` has been reset to `-1`) reports 0, not 100.
The value never exceeds 100, and is nonnegative provided durations are
nonnegative and the current timer's remaining time does not exceed its
duration. -/
theorem C3_queue_progress_amended (q : KTimerQueue) (now : ℤ) :
    (q.current_index = -1 → q.get_progress_percentage now = 0) ∧
    (q.timers = [] → q.get_progress_percentage now = 0) ∧
    ((q.timers.map KTimer.duration).sum ≤ 0 →
       q.get_progress_percentage now = 0) ∧
    (∀ i : ℕ, q.current_index = (i : ℤ) → i < q.timers.length →
       0 < (q.timers.map KTimer.duration).sum →
       q.get_progress_percentage now =
         pymin 100
           ((((((q.timers.take i).map KTimer.duration).sum +
               (((q.timers[i]?).getD default).duration -
                ((q.timers[i]?).getD default).get_remaining_time now)) : ℤ) : ℚ) /
             (((q.timers.map KTimer.duration).sum : ℤ) : ℚ) * 100)) ∧
    (q.get_progress_percentage now ≤ 100) ∧
    ((∀ t ∈ q.timers, 0 ≤ t.duration) →
     (∀ t, q.get_current_timer = some t →
        t.get_remaining_time now ≤ t.duration) →
     0 ≤ q.get_progress_percentage now) := by
  refine ⟨?_, ?_, ?_, ?_, ?_, ?_⟩
  · intro hidx
    by_cases hemp : q.timers = []
    · simp [KTimerQueue.get_progress_percentage, hemp]
    · by_cases htot : (q.timers.map KTimer.duration).sum ≤ 0
      · simp [KTimerQueue.get_progress_percentage, hemp, htot]
      · simp [KTimerQueue.get_progress_percentage, hemp, htot,
          KTimerQueue.get_current_timer, hidx, pymin]
  · intro hemp
    simp [KTimerQueue.get_progress_percentage, hemp]
  · intro htot
    by_cases hemp : q.timers = []
    · simp [KTimerQueue.get_progress_percentage, hemp]
    · simp [KTimerQueue.get_progress_percentage, hemp, htot]
  · intro i hidx hlen htot
    have hne : q.timers ≠ [] := by
      intro h; rw [h] at hlen; simp at hlen
    have hnle : ¬ (q.timers.map KTimer.duration).sum ≤ 0 := not_le.mpr htot
    have hcur : q.get_current_timer = some ((q.timers[i]?).getD default) := by
      unfold KTimerQueue.get_current_timer
      rw [hidx, if_pos ⟨Int.natCast_nonneg i, by exact_mod_cast hlen⟩]
      simp [Int.toNat_natCast, List.getElem?_eq_getElem hlen]
    simp [KTimerQueue.get_progress_percentage, hne, hnle, hcur, hidx,
      Int.toNat_natCast]
  · by_cases hemp : q.timers = []
    · simp [KTimerQueue.get_progress_percentage, hemp]
    · by_cases htot : (q.timers.map KTimer.duration).sum ≤ 0
      · simp [KTimerQueue.get_progress_percentage, hemp, htot]
      · simp only [KTimerQueue.get_progress_percentage, hemp, htot,
          if_false, ite_false]
        rw [pymin_eq_min]
        exact min_le_left _ _
  · intro hdur hrem
    by_cases hemp : q.timers = []
    · simp [KTimerQueue.get_progress_percentage, hemp]
    · by_cases htot : (q.timers.map KTimer.duration).sum ≤ 0
      · simp [KTimerQueue.get_progress_percentage, hemp, htot]
      · have htot' : (0 : ℤ) < (q.timers.map KTimer.duration).sum :=
          lt_of_not_le htot
        have hc0 : (0 : ℤ) ≤
            ((q.timers.take q.current_index.toNat).map KTimer.duration).sum := by
          apply List.sum_nonneg
          intro x hx
          obtain ⟨t, ht, rfl⟩ := List.mem_map.mp hx
          exact hdur t (List.take_subset _ _ ht)
        have hcd : (0 : ℤ) ≤
            (match q.get_current_timer with
             | some t =>
               ((q.timers.take q.current_index.toNat).map KTimer.duration).sum +
                 (t.duration - t.get_remaining_time now)
             | none =>
               ((q.timers.take q.current_index.toNat).map KTimer.duration).sum) := by
          cases hc : q.get_current_timer with
          | none => exact hc0
          | some t =>
            have h2 := hrem t hc
            change (0 : ℤ) ≤ _ + (t.duration - t.get_remaining_time now)
            omega
        simp only [KTimerQueue.get_progress_percentage, hemp, htot,
          if_false, ite_false]
        rw [pymin_eq_min]
        apply le_min (by norm_num)
        apply mul_nonneg _ (by norm_num)
        apply div_nonneg
        · exact_mod_cast hcd
        · exact_mod_cast le_of_lt htot'

/-- C3 witness: the sentinel clause applied to the not-yet-started queue,
and the index formula and bounds applied to the paused single-timer queue
(`current_index = 0`, duration 10, 6 seconds frozen): progress is
`(0 + (10 - 6)) / 10 * 100 = 40`, between 0 and 100. -/
theorem C3_witness :
    readyQueue.get_progress_percentage 0 = 0 ∧
    pausedQueue.get_progress_percentage 6 =
      pymin 100
        ((((((pausedQueue.timers.take 0).map KTimer.duration).sum +
            (((pausedQueue.timers[0]?).getD default).duration -
             ((pausedQueue.timers[0]?).getD default).get_remaining_time 6)) : ℤ) : ℚ) /
          (((pausedQueue.timers.map KTimer.duration).sum : ℤ) : ℚ) * 100) ∧
    0 ≤ pausedQueue.get_progress_percentage 6 :=
  ⟨(C3_queue_progress_amended readyQueue 0).1 rfl,
   (C3_queue_progress_amended pausedQueue 6).2.2.2.1 0 rfl
     (by decide) (by decide),
   (C3_queue_progress_amended pausedQueue 6).2.2.2.2.2 (by decide)
     (by
       intro t ht
       have h0 : pausedQueue.get_current_timer = some pausedTimer := by decide
       rw [h0] at ht
       obtain rfl := Option.some.inj ht
       decide)⟩

/-! ## C4 — TimerQueue.start -/

theorem KTimer.start_ready (t : KTimer) (now : ℤ) (h : t.status = .ready) :
    t.start now =
      ({ t with start_time := now, end_time := now + t.duration,
                elapsed_pause_time := 0, status := .running }, true) := by
  simp [KTimer.start, h]

theorem resetReady_status (t : KTimer) :
    (if t.status ≠ .ready then { t with status := KTimerStatus.ready }
     else t).status = .ready := by
  by_cases h : t.status = .ready <;> simp [h]

theorem start_next_timer_from_sentinel (q : KTimerQueue) (now : ℤ)
    (h0 : KTimer) (tl : List KTimer)
    (hq : q.timers = h0 :: tl) (hidx : q.current_index = -1)
    (hh : h0.status = .ready) :
    q.start_next_timer now =
      { queue := { q with current_index := 0,
                          timers := (h0.start now).1 :: tl },
        ok := true,
        events := [(q.queue_id, q.status, some h0.timer_id)] } := by
  unfold KTimerQueue.start_next_timer
  rw [hidx, hq]
  rw [if_neg (by simp [List.length_cons])]
  norm_num [KTimer.start_ready h0 now hh]

/-- C4 counterexample: the claim says `start()` succeeds whenever the
queue's status is not RUNNING, *including an empty timer list*.  The code
checks `if not self.timers: return False` first: starting the READY empty
queue fails. -/
theorem C4_counterexample :
    (emptyQueue.start 0).ok = false ∧ emptyQueue.status ≠ .running := by
  decide

/-- C4 amended: `start()` fails on an empty timer list (and when already
RUNNING, unchanged with no events); on a non-empty queue it succeeds from
COMPLETED or CANCELLED — first resetting every timer to READY and
`current_index` to the sentinel `-1`, then going RUNNING and starting
the first timer — and from a fresh READY queue (`current_index = -1`,
first timer READY). -/
theorem C4_queue_start_amended (q : KTimerQueue) (now : ℤ) :
    (q.timers = [] → q.start now = ⟨q, false, []⟩) ∧
    (q.status = .running → q.start now = ⟨q, false, []⟩) ∧
    (q.timers ≠ [] → (q.status = .completed ∨ q.status = .cancelled) →
       (q.start now).ok = true ∧
       (q.start now).queue.status = .running ∧
       (q.start now).queue.current_index = 0 ∧
       ((q.start now).queue.timers.head?).map KTimer.status =
         some KTimerStatus.running ∧
       (∀ t ∈ (q.start now).queue.timers.tail, t.status = .ready)) ∧
    (q.timers ≠ [] → q.status = .ready → q.current_index = -1 →
       (q.timers.head?).map KTimer.status = some KTimerStatus.ready →
       (q.start now).ok = true ∧
       (q.start now).queue.status = .running ∧
       (q.start now).queue.current_index = 0) := by
  refine ⟨?_, ?_, ?_, ?_⟩
  · intro hemp
    simp [KTimerQueue.start, hemp]
  · intro hrun
    rw [KTimerQueue.start]
    by_cases hemp : q.timers = []
    · simp [hemp]
    · simp [hemp, hrun]
  · intro hemp hst
    obtain ⟨h0, tl, hq⟩ : ∃ h0 tl, q.timers = h0 :: tl := by
      cases hq : q.timers with
      | nil => exact absurd hq hemp
      | cons a l => exact ⟨a, l, rfl⟩
    have hnr : q.status ≠ .running := by
      rcases hst with h | h <;> rw [h] <;> intro hc <;> cases hc
    have hres : (if q.status = .completed ∨ q.status = .cancelled then
        { q with
            timers := q.timers.map fun t =>
              if t.status ≠ .ready then { t with status := KTimerStatus.ready }
              else t,
            current_index := -1 }
      else q) =
        { q with
            timers := q.timers.map fun t =>
              if t.status ≠ .ready then { t with status := KTimerStatus.ready }
              else t,
            current_index := -1 } := if_pos hst
    rw [KTimerQueue.start, if_neg hemp, if_neg hnr]
    simp only [hres]
    set f : KTimer → KTimer := fun t =>
      if t.status ≠ .ready then { t with status := KTimerStatus.ready } else t
      with hf
    have hmap : (q.timers.map f) = f h0 :: tl.map f := by rw [hq]; rfl
    rw [start_next_timer_from_sentinel _ now (f h0) (tl.map f)
      (by simpa using hmap) rfl (by rw [hf]; exact resetReady_status h0)]
    refine ⟨rfl, rfl, rfl, ?_, ?_⟩
    · simp [KTimer.start_ready (f h0) now
        (by rw [hf]; exact resetReady_status h0)]
    · intro t ht
      simp only [List.tail_cons] at ht
      obtain ⟨t0, _, rfl⟩ := List.mem_map.mp ht
      exact resetReady_status t0
  · intro hemp hready hidx hhead
    obtain ⟨h0, tl, hq⟩ : ∃ h0 tl, q.timers = h0 :: tl := by
      cases hq : q.timers with
      | nil => exact absurd hq hemp
      | cons a l => exact ⟨a, l, rfl⟩
    have hh : h0.status = .ready := by
      rw [hq] at hhead
      simpa using hhead
    have hnr : q.status ≠ .running := by rw [hready]; intro hc; cases hc
    have hnres : ¬ (q.status = .completed ∨ q.status = .cancelled) := by
      rw [hready]; rintro (hc | hc) <;> cases hc
    rw [KTimerQueue.start, if_neg hemp, if_neg hnr]
    simp only [if_neg hnres]
    rw [start_next_timer_from_sentinel
          { queue_id := q.queue_id, name := q.name, timers := q.timers,
            current_index := q.current_index, status := KTimerStatus.running }
          now h0 tl hq hidx hh]
    exact ⟨rfl, rfl, rfl⟩

/-- C4 witness: restarting the fully COMPLETED single-timer queue at
`now = 50` succeeds with restart semantics, and starting the fresh READY
queue succeeds. -/
theorem C4_witness :
    ((completedQueue.start 50).ok = true ∧
     (completedQueue.start 50).queue.status = .running ∧
     (completedQueue.start 50).queue.current_index = 0 ∧
     ((completedQueue.start 50).queue.timers.head?).map KTimer.status =
       some KTimerStatus.running ∧
     (∀ t ∈ (completedQueue.start 50).queue.timers.tail,
        t.status = .ready)) ∧
    ((readyQueue.start 0).ok = true ∧
     (readyQueue.start 0).queue.status = .running ∧
     (readyQueue.start 0).queue.current_index = 0) :=
  ⟨(C4_queue_start_amended completedQueue 50).2.2.1 (by decide) (Or.inl rfl),
   (C4_queue_start_amended readyQueue 0).2.2.2 (by decide) rfl rfl
     (by decide)⟩

/-! ## C5 — TimerQueue.remove_timer -/

/-- A queue whose single timer is RUNNING and current. -/
def runningQueue : KTimerQueue := ⟨"q7", "cook", [runningTimer10], 0, .running⟩

/-- C5 counterexample: the claim says a removed current timer that is
RUNNING *or PAUSED* is first cancelled.  The code's guard is
`timer.status == TimerStatus.RUNNING` only: removing the PAUSED current
timer succeeds but leaves the removed timer PAUSED, not CANCELLED. -/
theorem C5_counterexample :
    (pausedQueue.remove_timer "tp").ok = true ∧
    (pausedQueue.remove_timer "tp").removed = some pausedTimer ∧
    pausedTimer.status = .paused ∧
    pausedTimer.status ≠ .cancelled := by decide

/-- C5 amended: `remove_timer(timer_id)` removes the first timer with a
matching id and returns `True`; only when that timer sits at
`current_index` *and is RUNNING* is it first cancelled (a PAUSED current
timer is removed with its status untouched); when the list becomes empty
the queue goes COMPLETED and the callback fires with no timer id; an
unknown id returns `False` with no state change and no events. -/
theorem C5_remove_timer_amended (q : KTimerQueue) (tid : String) :
    ((∀ t ∈ q.timers, t.timer_id ≠ tid) →
       q.remove_timer tid = ⟨q, false, [], none⟩) ∧
    (∀ i : ℕ, q.timers.findIdx? (fun t => t.timer_id == tid) = some i →
       (q.remove_timer tid).ok = true ∧
       (q.remove_timer tid).queue.timers = q.timers.eraseIdx i ∧
       ((q.timers[i]?).map KTimer.status = some .running →
          (i : ℤ) = q.current_index →
          (q.remove_timer tid).removed =
            (q.timers[i]?).map (fun t => { t with status := .cancelled })) ∧
       ((q.timers[i]?).map KTimer.status = some .paused →
          (q.remove_timer tid).removed = q.timers[i]?) ∧
       (q.timers.eraseIdx i = [] →
          (q.remove_timer tid).queue.status = .completed ∧
          (q.queue_id, KTimerStatus.completed, (none : Option String)) ∈
            (q.remove_timer tid).events)) := by
  constructor
  · intro habs
    have hnone : q.timers.findIdx? (fun t => t.timer_id == tid) = none := by
      rw [List.findIdx?_eq_none_iff]
      intro x hx
      exact beq_eq_false_iff_ne.mpr (habs x hx)
    simp [KTimerQueue.remove_timer, hnone]
  · intro i hfind
    obtain ⟨hlt, hp, -⟩ := List.findIdx?_eq_some_iff_getElem.mp hfind
    obtain ⟨tcur, hget⟩ : ∃ tc, q.timers[i]? = some tc :=
      ⟨_, List.getElem?_eq_getElem hlt⟩
    simp only [KTimerQueue.remove_timer, hfind, hget, Option.getD_some]
    refine ⟨?_, ?_, ?_, ?_, ?_⟩
    · split <;> rfl
    · split <;> rfl
    · intro hst hci
      have hst' : tcur.status = .running := by simpa using hst
      have hdc : (((i : ℤ) == q.current_index) && (tcur.status ==
          KTimerStatus.running)) = true := by
        rw [← hci]; simp [hst']
      have hcancel : (tcur.cancel).1 =
          { tcur with status := .cancelled } := by
        simp [KTimer.cancel, hst']
      split <;> simp [hdc, hcancel]
    · intro hst
      have hst' : tcur.status = .paused := by simpa using hst
      have hdc : (((i : ℤ) == q.current_index) && (tcur.status ==
          KTimerStatus.running)) = false := by
        simp [hst']
      split <;> simp [hdc]
    · intro hemp
      rw [if_pos hemp]
      exact ⟨rfl, by simp⟩

/-- C5 witness: removing an unknown id is a no-op failure; removing the
RUNNING current timer hands back the cancelled timer; removing the
PAUSED queue's only timer succeeds and completes the queue. -/
theorem C5_witness :
    pausedQueue.remove_timer "zzz" = ⟨pausedQueue, false, [], none⟩ ∧
    (runningQueue.remove_timer "t1").removed =
      (runningQueue.timers[0]?).map
        (fun t => { t with status := .cancelled }) ∧
    (pausedQueue.remove_timer "tp").ok = true ∧
    (pausedQueue.remove_timer "tp").queue.status = .completed :=
  ⟨(C5_remove_timer_amended pausedQueue "zzz").1 (by decide),
   ((C5_remove_timer_amended runningQueue "t1").2 0 (by decide)).2.2.1
     (by decide) rfl,
   ((C5_remove_timer_amended pausedQueue "tp").2 0 (by decide)).1,
   (((C5_remove_timer_amended pausedQueue "tp").2 0 (by decide)).2.2.2.2
     (by decide)).1⟩
